import Mathlib

/-
Verification development for the DMMS AI multi-channel gateway.

Shallow embedding of the subsystems under src/:
  - src/lib/connectors/registry.mjs  (ConnectorRegistry and the shared tools registry)
  - src/lib/ai/gemini.mjs            (callGemini multi-round tool loop)
  - src/lib/middleware/ai-router.mjs (aiRouterMiddleware)
  - src/unnamed/part_001             (storeMiddleware)
  - src/unnamed/part_002             (sessionMiddleware)
  - src/app/api/webhooks/telegram/route.ts and src/bot.mjs (history queries)

JavaScript conventions used throughout the model:
  - a thrown exception is an `Except.error msg`;
  - `null`/`undefined` arguments are `Option.none`;
  - string falsiness (only the empty string is falsy) is made explicit via `jsOr`;
  - external I/O (network fetches, the AI vendor, the system clock, connector
    session state) is supplied through explicit environment records, so every
    definition is a pure, executable function of its environment.
-/

namespace DMMS

/-- JS `x || default` on a string: the empty string is the only falsy string. -/
def jsOr (s d : String) : String :=
  if s = "" then d else s

/-- JS `x || default` where `x` may be null/undefined (`none`). -/
def jsOrOpt (s : Option String) (d : String) : String :=
  match s with
  | none => d
  | some v => jsOr v d

/-- A JS object with string-valued fields, as an association list. -/
abbrev JsObj := List (String × String)

/-- A JS tool-argument value: `none` models `null`/`undefined`, `some fields`
models an object. -/
abbrev Args := Option JsObj

/-- Field access `obj.k` on a (non-null) object: `none` when the field is absent. -/
def getField (o : JsObj) (k : String) : Option String :=
  (o.find? (fun e => e.1 == k)).map (fun e => e.2)

/-- JS string interpolation of a possibly-undefined value. -/
def jsStr (s : Option String) : String :=
  match s with
  | none => "undefined"
  | some v => v

-- ── Tools registry (src/lib/connectors/registry.mjs, shared tools document) ──

/-- One extracted search result, as assembled by `webSearch`:
`{ title, url, snippet }`. -/
structure SearchResult where
  title : String
  url : String
  snippet : String
deriving DecidableEq

/-- The external world observed by `webSearch` inside its try block.  The raw
HTML and HTTP traffic are external inputs; the environment carries the data the
code extracts from them.  `none`/empty options model absent-or-falsy JS values.
`exn` is `some msg` when some awaited call inside the try block rejects. -/
structure SearchEnv where
  exn : Option String
  snippets : List String
  links : List (String × String)
  iaAbstractText : Option String
  iaHeading : Option String
  iaAbstractURL : Option String
  iaAnswer : Option String
  iaRelatedTopics : List (Option String × Option String)
  pageContents : List (Option String)

/-- Zip snippets and links into result records, as the loop
`for i in 0 .. max(snippets.length, links.length)` does. -/
def buildResults (snippets : List String) (links : List (String × String)) :
    List SearchResult :=
  (List.range (max snippets.length links.length)).map fun i =>
    { title := jsOrOpt ((links.get? i).map Prod.snd) ""
      url := jsOrOpt ((links.get? i).map Prod.fst) ""
      snippet := jsOrOpt (snippets.get? i) "" }

/-- The DuckDuckGo instant-answer fallback of `webSearch`: abstract text, then
answer, then (only if still empty) up to three related topics. -/
def iaResults (env : SearchEnv) (query : Option String) : List SearchResult :=
  let r1 :=
    match env.iaAbstractText with
    | some t => [⟨jsOrOpt env.iaHeading (jsStr query), jsOrOpt env.iaAbstractURL "", t⟩]
    | none => []
  let r2 := r1 ++
    (match env.iaAnswer with
     | some a => [⟨"Answer", "", a⟩]
     | none => [])
  if r2 = [] then
    (env.iaRelatedTopics.take 3).filterMap fun e =>
      e.2.map fun txt => ⟨jsOrOpt e.1 "", jsOrOpt e.1 "", txt⟩
  else r2

/-- The digest-assembly loop of `webSearch`: one numbered block per result,
with fetched page content for the first three results carrying a URL. -/
def searchDigest (env : SearchEnv) (query : Option String)
    (results : List SearchResult) : String :=
  let urlsToFetch := (results.filter (fun r => r.url != "")).take 3
  let blocks := (results.enum.map fun e =>
    let i := e.1
    let r := e.2
    let base := "[" ++ toString (i + 1) ++ "] " ++ r.title ++ "\n" ++
      (if r.url != "" then "URL: " ++ r.url ++ "\n" else "") ++
      "Snippet: " ++ r.snippet ++ "\n"
    let fetchIdx := urlsToFetch.indexOf r
    let pageLine :=
      if fetchIdx < urlsToFetch.length then
        match (env.pageContents.get? fetchIdx).join with
        | some c => "Page content: " ++ c ++ "\n"
        | none => ""
      else ""
    base ++ pageLine ++ "\n")
  "Web search results for \"" ++ jsStr query ++ "\":\n\n" ++ String.join blocks ++
    "Use these search results and page content to give the user a detailed, accurate, up-to-date answer. Cite sources when possible."

/-- The body of the try block of `webSearch` after `const query = args.query`:
primary search, instant-answer fallback, no-results fallback, digest. -/
def webSearchTry (env : SearchEnv) (query : Option String) : String :=
  match env.exn with
  | some m =>
      "Web search failed (" ++ m ++ "). Please answer based on your knowledge and let the user know the information might not be fully current."
  | none =>
      let primary := buildResults env.snippets env.links
      let results := if primary = [] then iaResults env query else primary
      if results = [] then
        "No search results found for: \"" ++ jsStr query ++ "\". Please answer based on your knowledge."
      else
        searchDigest env query results

/-- `webSearch(args)` from the tools registry.  The very first statement of the
source, `const query = args.query`, executes OUTSIDE the try/catch, so a null
`args` raises a TypeError before the catch-all can intervene; for object
arguments the catch-all makes the body total. -/
def webSearch (env : SearchEnv) (args : Args) : Except String String :=
  match args with
  | none => .error "Cannot read properties of null (reading query)"
  | some fields => .ok (webSearchTry env (getField fields "query"))

/-- Environment for `executeTool`: the search world plus the locale-formatted
clock strings read by `get_datetime`. -/
structure ToolEnv where
  search : SearchEnv
  dateStr : String
  timeStr : String
  isoStr : String

/-- The `get_datetime` tool: serializes the current date/time; ignores `args`. -/
def getDatetime (env : ToolEnv) : Except String String :=
  .ok ("\x7b\"date\":\"" ++ env.dateStr ++ "\",\"time\":\"" ++ env.timeStr ++
    "\",\"timezone\":\"UTC\",\"iso\":\"" ++ env.isoStr ++ "\"\x7d")

/-- `executeTool(name, args)`: look the tool up by name in TOOLS
(`web_search` then `get_datetime`, in registration order); an unknown name
returns the string "Tool not found.". -/
def executeTool (env : ToolEnv) (name : String) (args : Args) :
    Except String String :=
  if name = "web_search" then webSearch env.search args
  else if name = "get_datetime" then getDatetime env
  else .ok "Tool not found."

-- ── Gemini provider (src/lib/ai/gemini.mjs) ─────────────────────────────────

/-- One part of a Gemini content: a function call, a text fragment, or a
function response sent back to the model. -/
inductive GPart where
  | fcall (name : String) (args : Args)
  | textp (s : String)
  | fresp (name : String) (result : String)
deriving DecidableEq

/-- One Gemini content entry: a role plus its parts. -/
structure GContent where
  role : String
  parts : List GPart
deriving DecidableEq

/-- One OpenAI-format chat message. -/
structure ChatMsg where
  role : String
  content : String
deriving DecidableEq

/-- `toGeminiContents`: drop system and tool messages, map assistant→model and
everything else→user, wrap content as a text part. -/
def toGeminiContents (messages : List ChatMsg) : List GContent :=
  messages.filterMap fun m =>
    if m.role = "system" then none
    else if m.role = "tool" then none
    else some ⟨if m.role = "assistant" then "model" else "user", [.textp m.content]⟩

/-- `{ reply, toolsUsed }` as returned by `callGemini`. -/
structure GeminiResult where
  reply : String
  toolsUsed : List String
deriving DecidableEq

/-- A tool executor: the behavior of the imported `executeTool` under some
network environment (an `await` of it may also reject, hence `Except`). -/
abbrev Exec := String → Args → Except String String

/-- `args || {}` as applied at the `executeTool` call site. -/
def orEmptyObj (a : Args) : Args :=
  match a with
  | none => some []
  | some f => some f

/-- The function calls of a response: `parts.filter(p => p.functionCall)`. -/
def functionCallsOf (parts : List GPart) : List (String × Args) :=
  parts.filterMap fun p =>
    match p with
    | .fcall n a => some (n, a)
    | _ => none

/-- The truthy text fragments of a response: `parts.filter(p => p.text)`. -/
def textOf (parts : List GPart) : List String :=
  parts.filterMap fun p =>
    match p with
    | .textp s => if s = "" then none else some s
    | _ => none

/-- The per-round tool-execution loop of `callGemini`: execute each requested
call with `args || {}`; on success record the tool name in `toolsUsed` and the
result; on a thrown error record no name and an `Error: msg` result.  Returns
the names recorded and the functionResponse parts, in call order. -/
def processCalls (exec : Exec) : List (String × Args) → List String × List GPart
  | [] => ([], [])
  | (name, args) :: rest =>
    let first :=
      match exec name (orEmptyObj args) with
      | .ok r => ([name], GPart.fresp name r)
      | .error m => ([], GPart.fresp name ("Error: " ++ m))
    let tail := processCalls exec rest
    (first.1 ++ tail.1, first.2 :: tail.2)

/-- The `while (round < maxRounds)` loop of `callGemini`, with the remaining
round budget as fuel.  A provider is a total function from the accumulated
transcript to the parts of its next response. -/
def geminiLoop (exec : Exec) (provider : List GContent → List GPart) :
    Nat → List String → List GContent → GeminiResult
  | 0, toolsUsed, _ =>
    ⟨"Sorry, I took too long thinking. Please try again.", toolsUsed⟩
  | fuel + 1, toolsUsed, contents =>
    let parts := provider contents
    let fcalls := functionCallsOf parts
    if fcalls.isEmpty then
      let joined := String.join (textOf parts)
      ⟨jsOr joined "Sorry, I couldn\x27t generate a response.", toolsUsed⟩
    else
      let step := processCalls exec fcalls
      geminiLoop exec provider fuel (toolsUsed ++ step.1)
        (contents ++ [⟨"model", parts⟩, ⟨"user", step.2⟩])

/-- `callGemini(apiKey, messages, model, opts)`: multi-round function calling
with `maxRounds = 3`.  The vendor client and API key only influence the
provider responses, which are abstracted as `provider`; the tool executor
`exec` stands for the imported `executeTool`. -/
def callGemini (exec : Exec) (provider : List GContent → List GPart)
    (messages : List ChatMsg) : GeminiResult :=
  geminiLoop exec provider 3 [] (toGeminiContents messages)

-- ── Connector registry (src/lib/connectors/registry.mjs) ───────────────────

/-- One enabled `UserChannel` row as read by `syncFromDB` (config already
parsed into a JS object; `connectionMode` may be null). -/
structure ChannelRow where
  userId : String
  channelType : String
  connectionMode : Option String
  config : JsObj
deriving DecidableEq

/-- A live connector entry as the registry sees it.  The connector classes are
constructed with `(userId, config, pool)`; their runtime session fields
(`socket`, `isConnecting`) are external state supplied by the environment. -/
structure Connector where
  userId : String
  channelType : String
deriving DecidableEq

/-- The channel types with a connector class in CONNECTOR_CLASSES. -/
def CONNECTOR_CLASSES : List String := ["telegram", "whatsapp", "discord", "slack"]

def isSupportedChannel (t : String) : Bool :=
  CONNECTOR_CLASSES.contains t

/-- The connector key `userId:channelType:connectionMode`.  The source builds
this as a colon-joined string and recovers the components with
`key.split(":")`; since user ids, channel types and modes contain no colon,
the string key is in bijection with this triple, which the model uses
directly (so `parts[0]` is `key.userId` and `parts[2]` is `key.mode`). -/
structure ConnKey where
  userId : String
  channelType : String
  mode : String
deriving DecidableEq

/-- `_key(userId, channelType, connectionMode)`. -/
def mkKey (userId channelType connectionMode : String) : ConnKey :=
  ⟨userId, channelType, connectionMode⟩

/-- Registry state: the live connector map (a JS Map, modelled as an
insertion-ordered association list with unique keys) and the poll timer. -/
structure RegState where
  connectors : List (ConnKey × Connector)
  pollTimer : Bool
deriving DecidableEq

def containsKey (m : List (ConnKey × Connector)) (key : ConnKey) : Bool :=
  m.any (fun e => e.1 == key)

def lookupKey (m : List (ConnKey × Connector)) (key : ConnKey) : Option Connector :=
  (m.find? (fun e => e.1 == key)).map (fun e => e.2)

/-- `Map.delete(key)`: under the Map invariant the key occurs at most once, so
removing every occurrence coincides with deleting the single entry. -/
def removeKey (m : List (ConnKey × Connector)) (key : ConnKey) :
    List (ConnKey × Connector) :=
  m.filter (fun e => e.1 != key)

/-- The external behavior of the connector classes (absent from the registry
module): whether `connector.start()` resolves or rejects for a given key, and
the `(socket, isConnecting)` session state observed on a connector at
watcher-check time. -/
structure ConnEnv where
  startResult : ConnKey → Except String Unit
  connState : ConnKey → Bool × Bool

/-- `startConnector(userId, channelType, connectionMode, config)`: skip if the
key is already live; unsupported types are configuration-only no-ops; else
register the connector, then await `start()`, deleting the entry if it throws.
Returns the new state and the keys on which `connector.start()` was invoked. -/
def startConnector (env : ConnEnv) (st : RegState)
    (userId channelType connectionMode : String) (_config : JsObj) :
    RegState × List ConnKey :=
  let key := mkKey userId channelType connectionMode
  if containsKey st.connectors key then (st, [])
  else if ¬ isSupportedChannel channelType then (st, [])
  else
    let st1 : RegState :=
      { st with connectors := st.connectors ++ [(key, ⟨userId, channelType⟩)] }
    match env.startResult key with
    | .ok _ => (st1, [key])
    | .error _ => ({ st1 with connectors := removeKey st1.connectors key }, [key])

/-- The key a `UserChannel` row reconciles under:
`_key(userId, channelType, connectionMode || "business")`. -/
def keyOf (row : ChannelRow) : ConnKey :=
  mkKey row.userId row.channelType (jsOrOpt row.connectionMode "business")

/-- One iteration of the first loop of `syncFromDB`: record the row key as
active and start a connector if the key is not yet live.  The accumulator is
`(state, activeKeys, startCalls)`. -/
def syncStep (env : ConnEnv) (acc : RegState × List ConnKey × List ConnKey)
    (row : ChannelRow) : RegState × List ConnKey × List ConnKey :=
  let mode := jsOrOpt row.connectionMode "business"
  let key := mkKey row.userId row.channelType mode
  let active := acc.2.1 ++ [key]
  if containsKey acc.1.connectors key then (acc.1, active, acc.2.2)
  else
    let started := startConnector env acc.1 row.userId row.channelType mode row.config
    (started.1, active, acc.2.2 ++ started.2)

/-- The first loop of `syncFromDB` over all enabled rows. -/
def syncPass1 (env : ConnEnv) (rows : List ChannelRow) (st : RegState) :
    RegState × List ConnKey × List ConnKey :=
  rows.foldl (syncStep env) (st, [], [])

/-- One step of the WhatsApp watcher loop of `syncFromDB`: a live whatsapp
connector with no socket and not connecting, whose key is active, is deleted
and — when the refetched row config carries no access token — restarted. -/
def watcherStep (env : ConnEnv) (rows : List ChannelRow) (active : List ConnKey)
    (acc : RegState × List ConnKey) (entry : ConnKey × Connector) :
    RegState × List ConnKey :=
  let conn := entry.2
  let key := entry.1
  let sockState := env.connState key
  if conn.channelType = "whatsapp" ∧ sockState.1 = false ∧ sockState.2 = false then
    if active.contains key then
      let st1 : RegState := { acc.1 with connectors := removeKey acc.1.connectors key }
      match rows.find? (fun r => r.userId == key.userId && r.channelType == "whatsapp") with
      | some row =>
          if jsOrOpt (getField row.config "accessToken") "" ≠ "" then (st1, acc.2)
          else
            let started := startConnector env st1 row.userId "whatsapp"
              (jsOr key.mode "personal") row.config
            (started.1, acc.2 ++ started.2)
      | none => (st1, acc.2)
    else acc
  else acc

/-- `syncFromDB()`: pass 1 starts connectors for enabled rows not yet live;
pass 2 (the watcher) restarts stale WhatsApp connectors.  The watcher folds
over the entry list as it stands after pass 1.  Returns the new state and the
list of keys on which `connector.start()` was invoked. -/
def syncFromDB (env : ConnEnv) (rows : List ChannelRow) (st : RegState) :
    RegState × List ConnKey :=
  let p1 := syncPass1 env rows st
  let p2 := p1.1.connectors.foldl (watcherStep env rows p1.2.1) (p1.1, [])
  (p2.1, p1.2.2 ++ p2.2)

/-- The external behavior of `connector.stop()` per key. -/
structure StopEnv where
  stopResult : ConnKey → Except String Unit

/-- `stopAll()`: cancel the poll timer, invoke `stop()` on every live
connector — each promise carries its own `.catch`, and the batch is awaited
with `Promise.allSettled`, so one rejection neither prevents nor hides the
others — then clear the map.  Returns the new state and the per-key settled
outcomes, in map order. -/
def stopAll (env : StopEnv) (st : RegState) :
    RegState × List (ConnKey × Except String Unit) :=
  let settled := st.connectors.map (fun e => (e.1, env.stopResult e.1))
  ({ connectors := [], pollTimer := false }, settled)

-- ── Data model for the message pipeline ─────────────────────────────────────

/-- One `Message` row.  `createdAt` timestamps are naturals (ISO strings order
as their instants do). -/
structure MessageRow where
  id : String
  conversationId : String
  role : String
  content : String
  createdAt : Nat
deriving DecidableEq

/-- One `Conversation` row.  A NULL `aiModel`/`aiProvider` column is the empty
string (both are read through JS `||` defaulting, under which NULL and the
empty string behave identically). -/
structure ConversationRow where
  id : String
  userId : String
  channelType : String
  channelPeer : String
  title : String
  aiModel : String
  aiProvider : String
  createdAt : Nat
  updatedAt : Nat
deriving DecidableEq

/-- One `UserApiKey` row. -/
structure ApiKeyRow where
  userId : String
  provider : String
  apiKey : String
deriving DecidableEq

/-- The datastore tables the pipeline touches. -/
structure DB where
  conversations : List ConversationRow
  messages : List MessageRow
  apiKeys : List ApiKeyRow
deriving DecidableEq

/-- The per-message pipeline context (`ctx`). -/
structure Ctx where
  userId : String
  channelType : String
  channelPeer : String
  channelName : String
  text : String
  now : Nat
  convoId : String
  aiProvider : String
  aiModel : String
  history : List MessageRow
  reply : String
  toolsUsed : List String
deriving DecidableEq

-- ── Session middleware (src/unnamed/part_002, lib/middleware/session.mjs) ──

/-- `SELECT ... FROM "Conversation" WHERE userId, channelType, channelPeer
ORDER BY "updatedAt" DESC LIMIT 1`: the most-recently-updated matching row. -/
def findConvo (db : DB) (u c p : String) : Option ConversationRow :=
  let cands := db.conversations.filter fun r =>
    r.userId == u && r.channelType == c && r.channelPeer == p
  cands.foldl
    (fun acc r =>
      match acc with
      | none => some r
      | some b => if r.updatedAt > b.updatedAt then some r else some b)
    none

/-- `sessionMiddleware`: resolve or create the conversation for
`(userId, channelType, channelPeer)`; set `ctx.now`, `ctx.convoId`,
`ctx.aiModel`, `ctx.aiProvider`.  `freshId` is the generated cuid and `tNow`
the clock reading for `new Date().toISOString()`. -/
def sessionMiddleware (freshId : String) (tNow : Nat) (ctx : Ctx) (db : DB) :
    Ctx × DB :=
  let ctx1 := { ctx with now := tNow }
  match findConvo db ctx.userId ctx.channelType ctx.channelPeer with
  | some row =>
      ({ ctx1 with
          convoId := row.id
          aiModel := jsOr row.aiModel "gpt-5.2-chat-latest"
          aiProvider := jsOr row.aiProvider "openai" }, db)
  | none =>
      ({ ctx1 with
          convoId := freshId
          aiModel := "gpt-5.2-chat-latest"
          aiProvider := "openai" },
       { db with conversations := db.conversations ++
          [⟨freshId, ctx.userId, ctx.channelType, ctx.channelPeer,
            ctx.text.take 50, "gpt-5.2-chat-latest", "openai", tNow, tNow⟩] })

-- ── History loads ───────────────────────────────────────────────────────────

/-- Sort messages ascending by `createdAt` (ORDER BY "createdAt" ASC). -/
def sortByCreatedAt (ms : List MessageRow) : List MessageRow :=
  ms.insertionSort (fun a b => a.createdAt ≤ b.createdAt)

/-- Sort messages descending by `createdAt` (ORDER BY "createdAt" DESC). -/
def sortByCreatedAtDesc (ms : List MessageRow) : List MessageRow :=
  ms.insertionSort (fun a b => b.createdAt ≤ a.createdAt)

/-- The history query of `src/app/api/webhooks/telegram/route.ts` (POST):
`SELECT role, content FROM "Message" WHERE "conversationId" = $1
ORDER BY "createdAt" ASC LIMIT 20`. -/
def routeHistoryLoad (db : DB) (convoId : String) : List MessageRow :=
  (sortByCreatedAt (db.messages.filter fun m => m.conversationId == convoId)).take 20

/-- The identical history query of `src/bot.mjs` (handleMessage). -/
def botHistoryLoad (db : DB) (convoId : String) : List MessageRow :=
  (sortByCreatedAt (db.messages.filter fun m => m.conversationId == convoId)).take 20

/-- The history load of the gateway bot in `src/unnamed/part_008`
(sessionMiddleware): `ORDER BY "createdAt" DESC LIMIT 15` then
`rows.reverse()`. -/
def gatewayHistoryLoad (db : DB) (convoId : String) : List MessageRow :=
  ((sortByCreatedAtDesc (db.messages.filter fun m => m.conversationId == convoId)).take 15).reverse

/-- The SPEC-side reading of a history load: the most recent `n` messages of
the conversation, ordered oldest-to-newest (for comparison with the code-side
loads above). -/
def mostRecentMessagesSpec (n : Nat) (ms : List MessageRow) : List MessageRow :=
  ((sortByCreatedAtDesc ms).take n).reverse

/-- Modelled from the spec: `lib/middleware/history.mjs` is imported by the
gateway orchestrator but is not among the sources.  Per spec section 4.3 the
History stage loads the most recent `n` messages of the conversation, ordered
oldest-to-newest, into the context, and performs no writes. -/
def historyMiddleware (n : Nat) (ctx : Ctx) (db : DB) : Ctx × DB :=
  ({ ctx with history :=
      mostRecentMessagesSpec n (db.messages.filter fun m => m.conversationId == ctx.convoId) },
   db)

-- ── AI router middleware (src/lib/middleware/ai-router.mjs) ────────────────

/-- `envKeyMap`: provider to environment-variable name. -/
def envKeyMap (provider : String) : Option String :=
  if provider = "openai" then some "OPENAI_API_KEY"
  else if provider = "gemini" then some "GEMINI_API_KEY"
  else none

/-- The external inputs of the AI-routing stage: `process.env` (with `none`
for unset variables) and the provider call dispatched through `callAI`
(`lib/ai/registry.mjs` is a thin dispatcher over the provider adapters; its
outcome under the ambient network is abstracted per
provider/key/messages/model). -/
structure AIEnv where
  envVar : String → Option String
  callAI : String → String → List ChatMsg → String → Except String GeminiResult

/-- The key-resolution expression
`keyRes.rows[0]?.apiKey || process.env[envKeyMap[provider] || "OPENAI_API_KEY"]`:
`none` when neither a truthy stored key nor a truthy env fallback exists. -/
def resolveApiKey (db : DB) (env : AIEnv) (u provider : String) : Option String :=
  let stored := ((db.apiKeys.find? fun r => r.userId == u && r.provider == provider).map
    (fun r => r.apiKey)).bind fun k => if k = "" then none else some k
  match stored with
  | some k => some k
  | none =>
      (env.envVar (jsOrOpt (envKeyMap provider) "OPENAI_API_KEY")).bind
        fun k => if k = "" then none else some k

/-- `buildSystemPrompt(channelName)`; the embedded current date and time are
external clock readings. -/
def buildSystemPrompt (dateStr timeStr channelName : String) : String :=
  "You are DMMS AI, an intelligent AI assistant on " ++ channelName ++
  ". Today is " ++ dateStr ++ ", " ++ timeStr ++ " UTC.\n\nCAPABILITIES:\n" ++
  "- You can search the internet for real-time information (weather, news, prices, events, etc.)\n" ++
  "- You have access to tools: use web_search when you need current/live data\n" ++
  "- You remember the conversation context\n\nRULES:\n" ++
  "- Read the user\x27s message carefully and answer their EXACT question\n" ++
  "- When asked about weather, news, prices, sports, or current events: ALWAYS use the web_search tool first\n" ++
  "- Be helpful, accurate, and direct\n" ++
  "- Keep responses concise but complete (under 500 characters when possible)\n" ++
  "- Use plain text — no markdown formatting, no asterisks, no code blocks\n" ++
  "- If the user greets you, greet them warmly and ask how you can help\n" ++
  "- If a tool search fails, be honest about it\n" ++
  "- Be conversational and natural, like a smart friend\n\nIDENTITY:\n" ++
  "- You are DMMS AI, NOT ChatGPT, NOT Google, NOT Siri\n" ++
  "- You are powered by advanced AI technology\n" ++
  "- You are available on multiple messengers (Telegram, WhatsApp, Discord, and more)\n" ++
  "- Your tagline: \"Every Messenger is AI Now\""

/-- The message list built by the AI router: system prompt, history, then the
new user turn. -/
def buildMessages (dateStr timeStr : String) (ctx : Ctx) : List ChatMsg :=
  ⟨"system", buildSystemPrompt dateStr timeStr (jsOr ctx.channelName ctx.channelType)⟩ ::
    (ctx.history.map fun m => (⟨m.role, m.content⟩ : ChatMsg)) ++
    [⟨"user", ctx.text⟩]

/-- `aiRouterMiddleware`: resolve the provider credential (throwing when none
is configured), build the messages, call the provider, and record the reply
and tools used.  Performs no datastore writes. -/
def aiRouterMiddleware (env : AIEnv) (dateStr timeStr : String) (ctx : Ctx) (db : DB) :
    Except String (Ctx × DB) :=
  let provider := jsOr ctx.aiProvider "openai"
  match resolveApiKey db env ctx.userId provider with
  | none => .error ("No API key configured for " ++ provider)
  | some apiKey =>
      match env.callAI provider apiKey (buildMessages dateStr timeStr ctx) ctx.aiModel with
      | .error e => .error e
      | .ok result =>
          .ok ({ ctx with
                  reply := result.reply
                  toolsUsed := ctx.toolsUsed ++ result.toolsUsed }, db)

-- ── Store middleware (src/unnamed/part_001, lib/middleware/store.mjs) ──────

/-- `storeMiddleware`: insert the user message (timestamped with `ctx.now`
from the Session stage), then the assistant message (timestamped `saveNow`),
then advance the conversation timestamp.  `idU`/`idA` are the generated cuids
and `tSave` the clock reading for `saveNow`. -/
def storeMiddleware (idU idA : String) (tSave : Nat) (ctx : Ctx) (db : DB) :
    Ctx × DB :=
  (ctx,
   { db with
      messages := db.messages ++
        [⟨idU, ctx.convoId, "user", ctx.text, ctx.now⟩,
         ⟨idA, ctx.convoId, "assistant", ctx.reply, tSave⟩]
      conversations := db.conversations.map fun r =>
        if r.id == ctx.convoId then { r with updatedAt := tSave } else r })

-- ── Pipeline composition (src/unnamed/part_008, gateway orchestrator) ──────

/-- The per-run parameters external to the datastore: generated ids and clock
readings. -/
structure PipeParams where
  freshConvoId : String
  idUser : String
  idAssistant : String
  tNow : Nat
  tSave : Nat
  histN : Nat
  dateStr : String
  timeStr : String

/-- Modelled from the spec: `lib/middleware/pipeline.mjs` (createPipeline) is
not among the sources.  Per spec section 4.3 the pipeline is the sequential
composition Session → History → AI-Routing → Store over one shared context,
and an exception raised by any stage aborts the remaining chain.  The result
carries the datastore state as it stands when the run finishes or aborts. -/
def runPipeline (env : AIEnv) (p : PipeParams) (ctx0 : Ctx) (db0 : DB) :
    DB × Except String Ctx :=
  let s1 := sessionMiddleware p.freshConvoId p.tNow ctx0 db0
  let s2 := historyMiddleware p.histN s1.1 s1.2
  match aiRouterMiddleware env p.dateStr p.timeStr s2.1 s2.2 with
  | .error e => (s2.2, .error e)
  | .ok s3 =>
      let s4 := storeMiddleware p.idUser p.idAssistant p.tSave s3.1 s3.2
      (s4.2, .ok s4.1)

-- ── Helper lemmas ───────────────────────────────────────────────────────────

theorem jsOr_ne_empty (s d : String) (hd : d ≠ "") : jsOr s d ≠ "" := by
  unfold jsOr
  split
  · exact hd
  · assumption

/-- Every round of the loop produces a non-empty reply: the cap message, the
default reply, and a non-empty joined text are all non-empty. -/
theorem geminiLoop_reply_ne_empty (exec : Exec) (provider : List GContent → List GPart) :
    ∀ fuel tu cs, (geminiLoop exec provider fuel tu cs).reply ≠ "" := by
  intro fuel
  induction fuel with
  | zero =>
      intro tu cs
      simp [geminiLoop]
  | succ n ih =>
      intro tu cs
      rw [geminiLoop]
      split
      · exact jsOr_ne_empty _ _ (by simp)
      · exact ih _ _

/-- When every provider response carries a function call, the loop burns all
its fuel and returns the cap apology. -/
theorem geminiLoop_cap (exec : Exec) (provider : List GContent → List GPart)
    (h : ∀ cs, (functionCallsOf (provider cs)).isEmpty = false) :
    ∀ fuel tu cs, (geminiLoop exec provider fuel tu cs).reply =
      "Sorry, I took too long thinking. Please try again." := by
  intro fuel
  induction fuel with
  | zero => intro tu cs; rfl
  | succ n ih =>
      intro tu cs
      rw [geminiLoop]
      rw [if_neg (by simp [h cs])]
      exact ih _ _

-- ── Claim theorems ──────────────────────────────────────────────────────────

/-- C1: for every sequence of provider responses, the multi-round tool loop of
callGemini terminates within the fixed cap of 3 rounds (it is a total function
of its inputs); when every response requests further tool calls — the cap is
exceeded — it returns the fixed apologetic message rather than raising, and in
every case (any executor, provider and message list) the returned reply string
is non-empty. -/
theorem callGemini_round_cap (exec : Exec) (provider : List GContent → List GPart)
    (messages : List ChatMsg)
    (h : ∀ cs, (functionCallsOf (provider cs)).isEmpty = false) :
    (callGemini exec provider messages).reply =
        "Sorry, I took too long thinking. Please try again."
    ∧ ∀ (e2 : Exec) (p2 : List GContent → List GPart) (m2 : List ChatMsg),
        (callGemini e2 p2 m2).reply ≠ "" := by
  constructor
  · exact geminiLoop_cap exec provider h 3 [] (toGeminiContents messages)
  · intro e2 p2 m2
    exact geminiLoop_reply_ne_empty e2 p2 3 [] (toGeminiContents m2)

theorem callGemini_round_cap_witness :
    (callGemini (fun _ _ => Except.ok "r") (fun _ => [GPart.fcall "t" none]) []).reply =
        "Sorry, I took too long thinking. Please try again."
    ∧ ∀ (e2 : Exec) (p2 : List GContent → List GPart) (m2 : List ChatMsg),
        (callGemini e2 p2 m2).reply ≠ "" :=
  callGemini_round_cap (fun _ _ => Except.ok "r") (fun _ => [GPart.fcall "t" none]) []
    (fun _ => rfl)

/-- A concrete tool environment (an idle network and a fixed clock). -/
def toolEnvX : ToolEnv :=
  { search := { exn := none, snippets := [], links := [], iaAbstractText := none
                iaHeading := none, iaAbstractURL := none, iaAnswer := none
                iaRelatedTopics := [], pageContents := [] }
    dateStr := "d", timeStr := "t", isoStr := "i" }

/-- C2 counterexample: executeTool does NOT return a string for every args
value — with a null/undefined args, the web_search tool reads `args.query`
outside its try/catch and raises a TypeError, so the claim as stated is false
at (name, args) = ("web_search", null). -/
theorem executeTool_null_websearch_raises :
    executeTool toolEnvX "web_search" none =
      Except.error "Cannot read properties of null (reading query)" := rfl

/-- C2 (amended): for every tool name and every object (non-null) args value,
executeTool returns a string and never raises — including unknown tool names
and malformed object arguments — and for every name that is not a registered
tool (not web_search and not get_datetime) it returns the string
"Tool not found." whatever the args value, null included; only a
null/undefined args passed to web_search raises, and the sole call site
normalizes that case away with `args || {}`. -/
theorem executeTool_total_on_objects :
    (∀ env name fields, ∃ s, executeTool env name (some fields) = Except.ok s)
    ∧ (∀ env name args, name ≠ "web_search" → name ≠ "get_datetime" →
        executeTool env name args = Except.ok "Tool not found.") := by
  constructor
  · intro env name fields
    by_cases h1 : name = "web_search"
    · subst h1
      exact ⟨_, rfl⟩
    · by_cases h2 : name = "get_datetime"
      · subst h2
        unfold executeTool
        rw [if_neg h1]
        exact ⟨_, rfl⟩
      · unfold executeTool
        rw [if_neg h1, if_neg h2]
        exact ⟨_, rfl⟩
  · intro env name args h1 h2
    unfold executeTool
    rw [if_neg h1, if_neg h2]

theorem executeTool_total_on_objects_witness :
    (∃ s, executeTool toolEnvX "my_tool" (some []) = Except.ok s)
    ∧ executeTool toolEnvX "my_tool" none = Except.ok "Tool not found." :=
  ⟨executeTool_total_on_objects.1 toolEnvX "my_tool" [],
   executeTool_total_on_objects.2 toolEnvX "my_tool" none (by decide) (by decide)⟩

/-- C10: in the tool-execution block of callGemini, a tool name enters
toolsUsed exactly when its execution completes without throwing, and a call
whose execution throws contributes a functionResponse part carrying
"Error: msg" — sent back to the model in the next round — without its name
being recorded. -/
theorem processCalls_toolsUsed (exec : Exec) (calls : List (String × Args)) :
    (processCalls exec calls).1 =
      (calls.filter fun c => (exec c.1 (orEmptyObj c.2)).isOk).map Prod.fst
    ∧ (processCalls exec calls).2 = calls.map fun c =>
        match exec c.1 (orEmptyObj c.2) with
        | .ok r => GPart.fresp c.1 r
        | .error m => GPart.fresp c.1 ("Error: " ++ m) := by
  induction calls with
  | nil => exact ⟨rfl, rfl⟩
  | cons c rest ih =>
      obtain ⟨n, a⟩ := c
      cases hx : exec n (orEmptyObj a) with
      | ok r =>
          constructor
          · simp [processCalls, hx, ih.1, List.filter_cons, Except.isOk, Except.toBool]
          · simp [processCalls, hx, ih.2]
      | error m =>
          constructor
          · simp [processCalls, hx, ih.1, List.filter_cons, Except.isOk, Except.toBool]
          · simp [processCalls, hx, ih.2]

-- ── Registry lemmas ─────────────────────────────────────────────────────────

theorem containsKey_removeKey (m : List (ConnKey × Connector)) (k : ConnKey) :
    containsKey (removeKey m k) k = false := by
  simp only [containsKey, removeKey]
  rw [List.any_eq_false]
  intro x hx
  have hne := (List.mem_filter.mp hx).2
  simp only [bne_iff_ne, ne_eq] at hne
  simp [hne]

theorem lookupKey_removeKey (m : List (ConnKey × Connector)) (k : ConnKey) :
    lookupKey (removeKey m k) k = none := by
  simp only [lookupKey, removeKey]
  have h : List.find? (fun e : ConnKey × Connector => e.1 == k)
      (List.filter (fun e : ConnKey × Connector => e.1 != k) m) = none := by
    rw [List.find?_eq_none]
    intro x hx
    have hne := (List.mem_filter.mp hx).2
    simp only [bne_iff_ne, ne_eq] at hne
    simp [hne]
  rw [h]
  rfl

/-- When `start()` always resolves, `startConnector` never removes a key. -/
theorem startConnector_ok_contains (env : ConnEnv)
    (hok : ∀ k, env.startResult k = Except.ok ()) (st : RegState)
    (u c m : String) (cfg : JsObj) (k2 : ConnKey)
    (h : containsKey st.connectors k2 = true) :
    containsKey (startConnector env st u c m cfg).1.connectors k2 = true := by
  simp only [startConnector]
  by_cases hpres : containsKey st.connectors (mkKey u c m) = true
  · rw [if_pos hpres]
    exact h
  · rw [if_neg hpres]
    by_cases hsupq : isSupportedChannel c = true
    · rw [if_neg (by simp [hsupq]), hok (mkKey u c m)]
      simp only [containsKey, List.any_append]
      simp only [containsKey] at h
      simp [h]
    · rw [if_pos (by simp [hsupq])]
      exact h

/-- When `start()` always resolves and the type is supported, `startConnector`
leaves its own key live. -/
theorem startConnector_ok_self (env : ConnEnv)
    (hok : ∀ k, env.startResult k = Except.ok ()) (st : RegState)
    (u c m : String) (cfg : JsObj) (hsup : isSupportedChannel c = true) :
    containsKey (startConnector env st u c m cfg).1.connectors (mkKey u c m) = true := by
  simp only [startConnector]
  by_cases hpres : containsKey st.connectors (mkKey u c m) = true
  · rw [if_pos hpres]
    exact hpres
  · rw [if_neg hpres, if_neg (by simp [hsup]), hok (mkKey u c m)]
    simp [containsKey, List.any_append]

theorem syncStep_contains_mono (env : ConnEnv)
    (hok : ∀ k, env.startResult k = Except.ok ())
    (acc : RegState × List ConnKey × List ConnKey) (row : ChannelRow) (k2 : ConnKey)
    (h : containsKey acc.1.connectors k2 = true) :
    containsKey (syncStep env acc row).1.connectors k2 = true := by
  simp only [syncStep]
  by_cases hpres : containsKey acc.1.connectors
      (mkKey row.userId row.channelType (jsOrOpt row.connectionMode "business")) = true
  · rw [if_pos hpres]
    exact h
  · rw [if_neg hpres]
    exact startConnector_ok_contains env hok acc.1 _ _ _ _ k2 h

theorem syncFold_contains_mono (env : ConnEnv)
    (hok : ∀ k, env.startResult k = Except.ok ()) (rows : List ChannelRow) :
    ∀ (acc : RegState × List ConnKey × List ConnKey) (k2 : ConnKey),
      containsKey acc.1.connectors k2 = true →
      containsKey (rows.foldl (syncStep env) acc).1.connectors k2 = true := by
  induction rows with
  | nil => intro acc k2 h; exact h
  | cons r rest ih =>
      intro acc k2 h
      rw [List.foldl_cons]
      exact ih _ k2 (syncStep_contains_mono env hok acc r k2 h)

/-- After the first loop, every enabled row of a supported type has a live
connector (when every `start()` resolves). -/
theorem syncFold_ensures_rows (env : ConnEnv)
    (hok : ∀ k, env.startResult k = Except.ok ()) (rows : List ChannelRow) :
    ∀ (acc : RegState × List ConnKey × List ConnKey) (row : ChannelRow),
      row ∈ rows → isSupportedChannel row.channelType = true →
      containsKey (rows.foldl (syncStep env) acc).1.connectors (keyOf row) = true := by
  induction rows with
  | nil => intro acc row hrow; exact absurd hrow (List.not_mem_nil row)
  | cons r rest ih =>
      intro acc row hrow hsup
      rw [List.foldl_cons]
      rcases List.mem_cons.mp hrow with heq | hmem
      · subst heq
        apply syncFold_contains_mono env hok rest
        simp only [syncStep, keyOf]
        by_cases hpres : containsKey acc.1.connectors
            (mkKey row.userId row.channelType (jsOrOpt row.connectionMode "business")) = true
        · rw [if_pos hpres]
          exact hpres
        · rw [if_neg hpres]
          exact startConnector_ok_self env hok acc.1 _ _ _ _ hsup
      · exact ih _ row hmem hsup

/-- A row whose key is already live — or whose type has no connector class —
changes neither the state nor the start-call list. -/
theorem syncStep_noop (env : ConnEnv)
    (acc : RegState × List ConnKey × List ConnKey) (row : ChannelRow)
    (h : containsKey acc.1.connectors (keyOf row) = true ∨
         isSupportedChannel row.channelType = false) :
    (syncStep env acc row).1 = acc.1 ∧ (syncStep env acc row).2.2 = acc.2.2 := by
  simp only [syncStep]
  simp only [keyOf] at h
  by_cases hpres : containsKey acc.1.connectors
      (mkKey row.userId row.channelType (jsOrOpt row.connectionMode "business")) = true
  · rw [if_pos hpres]
    exact ⟨rfl, rfl⟩
  · rw [if_neg hpres]
    rcases h with h | h
    · exact absurd h hpres
    · simp only [startConnector]
      rw [if_neg hpres, if_pos (by simp [h])]
      exact ⟨rfl, by simp⟩

theorem syncFold_noop (env : ConnEnv) (rows : List ChannelRow) :
    ∀ (acc : RegState × List ConnKey × List ConnKey),
      (∀ row ∈ rows, containsKey acc.1.connectors (keyOf row) = true ∨
        isSupportedChannel row.channelType = false) →
      (rows.foldl (syncStep env) acc).1 = acc.1 ∧
      (rows.foldl (syncStep env) acc).2.2 = acc.2.2 := by
  induction rows with
  | nil => intro acc _; exact ⟨rfl, rfl⟩
  | cons r rest ih =>
      intro acc h
      rw [List.foldl_cons]
      have hr := syncStep_noop env acc r (h r (List.mem_cons_self r rest))
      have hrest := ih (syncStep env acc r) (by
        intro row hrow
        rcases h row (List.mem_cons_of_mem r hrow) with hc | hu
        · exact Or.inl (by rw [hr.1]; exact hc)
        · exact Or.inr hu)
      exact ⟨by rw [hrest.1, hr.1], by rw [hrest.2, hr.2]⟩

/-- Every entry the registry inserts pairs a key with a connector of the same
channel type (startConnector adds `(mkKey u c m, ⟨u, c⟩)`); this invariant is
preserved by startConnector. -/
theorem startConnector_wf (env : ConnEnv) (st : RegState)
    (u c m : String) (cfg : JsObj)
    (h : ∀ e ∈ st.connectors, e.2.channelType = e.1.channelType) :
    ∀ e ∈ (startConnector env st u c m cfg).1.connectors,
      e.2.channelType = e.1.channelType := by
  simp only [startConnector]
  by_cases hpres : containsKey st.connectors (mkKey u c m) = true
  · rw [if_pos hpres]
    exact h
  · rw [if_neg hpres]
    by_cases hsup : isSupportedChannel c = true
    · rw [if_neg (by simp [hsup])]
      cases henv : env.startResult (mkKey u c m) with
      | ok a =>
          intro e he
          rcases List.mem_append.mp he with he2 | he2
          · exact h e he2
          · rcases List.mem_singleton.mp he2 with rfl
            rfl
      | error a =>
          intro e he
          simp only [removeKey] at he
          have he2 := (List.mem_filter.mp he).1
          rcases List.mem_append.mp he2 with he3 | he3
          · exact h e he3
          · rcases List.mem_singleton.mp he3 with rfl
            rfl
    · rw [if_pos (by simp [hsup])]
      exact h

theorem syncStep_wf (env : ConnEnv)
    (acc : RegState × List ConnKey × List ConnKey) (row : ChannelRow)
    (h : ∀ e ∈ acc.1.connectors, e.2.channelType = e.1.channelType) :
    ∀ e ∈ (syncStep env acc row).1.connectors,
      e.2.channelType = e.1.channelType := by
  simp only [syncStep]
  by_cases hpres : containsKey acc.1.connectors
      (mkKey row.userId row.channelType (jsOrOpt row.connectionMode "business")) = true
  · rw [if_pos hpres]
    exact h
  · rw [if_neg hpres]
    exact startConnector_wf env acc.1 _ _ _ _ h

theorem syncFold_wf (env : ConnEnv) (rows : List ChannelRow) :
    ∀ (acc : RegState × List ConnKey × List ConnKey),
      (∀ e ∈ acc.1.connectors, e.2.channelType = e.1.channelType) →
      ∀ e ∈ (rows.foldl (syncStep env) acc).1.connectors,
        e.2.channelType = e.1.channelType := by
  induction rows with
  | nil => intro acc h; exact h
  | cons r rest ih =>
      intro acc h
      rw [List.foldl_cons]
      exact ih _ (syncStep_wf env acc r h)

/-- When no live WhatsApp connector is observed stale (socket absent and not
connecting), and each live entry pairs a key with a connector of the key's
channel type — true of every state the registry constructs — the WhatsApp
watcher loop is the identity.  `connState` at keys whose channel type is not
whatsapp is never consulted by the loop's stale check. -/
theorem watcher_noop (env : ConnEnv) (rows : List ChannelRow) (active : List ConnKey)
    (hhealthy : ∀ k, k.channelType = "whatsapp" →
      (env.connState k).1 = true ∨ (env.connState k).2 = true) :
    ∀ (entries : List (ConnKey × Connector)) (st : RegState) (calls : List ConnKey),
      (∀ e ∈ entries, e.2.channelType = e.1.channelType) →
      entries.foldl (watcherStep env rows active) (st, calls) = (st, calls) := by
  intro entries
  induction entries with
  | nil => intro st calls _; rfl
  | cons e rest ih =>
      intro st calls hwf
      rw [List.foldl_cons]
      have hcond : ¬(e.2.channelType = "whatsapp" ∧ (env.connState e.1).1 = false ∧
          (env.connState e.1).2 = false) := by
        intro hc
        have hk : e.1.channelType = "whatsapp" := by
          rw [← hwf e (List.mem_cons_self e rest)]
          exact hc.1
        rcases hhealthy e.1 hk with h | h
        · rw [hc.2.1] at h
          exact Bool.false_ne_true h
        · rw [hc.2.2] at h
          exact Bool.false_ne_true h
      have hstep : watcherStep env rows active (st, calls) e = (st, calls) := by
        simp only [watcherStep]
        rw [if_neg hcond]
      rw [hstep]
      exact ih st calls (fun x hx => hwf x (List.mem_cons_of_mem e hx))

-- ── Registry claim theorems ─────────────────────────────────────────────────

/-- Environment for the C6 counterexample: every `start()` resolves, and every
connector is observed with no socket and not connecting (a stale session). -/
def envC6 : ConnEnv :=
  { startResult := fun _ => Except.ok (), connState := fun _ => (false, false) }

/-- One enabled WhatsApp row in session mode (no access token). -/
def rowsC6 : List ChannelRow :=
  [{ userId := "u", channelType := "whatsapp", connectionMode := none, config := [] }]

/-- C6 counterexample: running syncFromDB twice with an identical set of
enabled rows CAN cause additional start() calls on the second pass — with one
enabled WhatsApp row whose connector is observed stale, the watcher deletes
the live key and restarts it, so the claim as stated is false. -/
theorem syncFromDB_second_pass_restarts :
    (syncFromDB envC6 rowsC6 (syncFromDB envC6 rowsC6 ⟨[], false⟩).1).2 ≠ [] := by
  decide

/-- C6 (amended): running syncFromDB twice with an identical set of enabled
rows causes no additional connector start() calls on the second pass, provided
every start() resolves and no live WhatsApp connector is observed stale
(socket absent and not currently connecting); a key already present in the
live map is then never restarted.  (A stale WhatsApp connector is deliberately
restarted by the self-healing watcher even though its key is present.)  The
well-formedness hypothesis — each live entry pairs a key with a connector of
the key's channel type — holds of every state the registry constructs, and
non-WhatsApp connectors (e.g. a long-polling Telegram connector with no
socket field) are never examined by the stale check. -/
theorem syncFromDB_idempotent_when_healthy (env : ConnEnv) (rows : List ChannelRow)
    (st : RegState)
    (hok : ∀ k, env.startResult k = Except.ok ())
    (hwf : ∀ e ∈ st.connectors, e.2.channelType = e.1.channelType)
    (hhealthy : ∀ k, k.channelType = "whatsapp" →
      (env.connState k).1 = true ∨ (env.connState k).2 = true) :
    (syncFromDB env rows (syncFromDB env rows st).1).2 = [] := by
  have hwf1 : ∀ e ∈ (syncPass1 env rows st).1.connectors,
      e.2.channelType = e.1.channelType :=
    syncFold_wf env rows (st, [], []) hwf
  have hfirst : (syncFromDB env rows st).1 = (syncPass1 env rows st).1 := by
    simp only [syncFromDB]
    rw [watcher_noop env rows (syncPass1 env rows st).2.1 hhealthy
      (syncPass1 env rows st).1.connectors (syncPass1 env rows st).1 [] hwf1]
  rw [hfirst]
  have hrows : ∀ row ∈ rows,
      containsKey (syncPass1 env rows st).1.connectors (keyOf row) = true ∨
      isSupportedChannel row.channelType = false := by
    intro row hrow
    cases hsup : isSupportedChannel row.channelType with
    | true => exact Or.inl (syncFold_ensures_rows env hok rows _ row hrow hsup)
    | false => exact Or.inr rfl
  have hpass := syncFold_noop env rows ((syncPass1 env rows st).1, [], []) hrows
  have hwf2 : ∀ e ∈ (syncPass1 env rows (syncPass1 env rows st).1).1.connectors,
      e.2.channelType = e.1.channelType :=
    syncFold_wf env rows ((syncPass1 env rows st).1, [], []) hwf1
  simp only [syncFromDB]
  rw [watcher_noop env rows (syncPass1 env rows (syncPass1 env rows st).1).2.1 hhealthy
    (syncPass1 env rows (syncPass1 env rows st).1).1.connectors
    (syncPass1 env rows (syncPass1 env rows st).1).1 [] hwf2]
  have hcalls : (syncPass1 env rows (syncPass1 env rows st).1).2.2 = [] := hpass.2
  simp only [syncPass1] at hcalls ⊢
  rw [hcalls]
  rfl

theorem syncFromDB_idempotent_when_healthy_witness :
    (syncFromDB ⟨fun _ => Except.ok (), fun _ => (true, false)⟩ rowsC6
      ((syncFromDB ⟨fun _ => Except.ok (), fun _ => (true, false)⟩ rowsC6 ⟨[], false⟩).1)).2 = [] :=
  syncFromDB_idempotent_when_healthy ⟨fun _ => Except.ok (), fun _ => (true, false)⟩ rowsC6
    ⟨[], false⟩ (fun _ => rfl) (fun e he => absurd he (List.not_mem_nil e))
    (fun _ _ => Or.inl rfl)

/-- C7: when a connector of a supported type is started for a key that is not
yet live and its start() throws, the error is caught (startConnector is a
total function), the key is removed from the live map, and the key is eligible
for retry: a later startConnector for the same key reaches connector.start()
again. -/
theorem startConnector_failure_recovery (env env2 : ConnEnv) (st : RegState)
    (u c m : String) (cfg : JsObj) (e : String)
    (hsup : isSupportedChannel c = true)
    (habs : containsKey st.connectors (mkKey u c m) = false)
    (herr : env.startResult (mkKey u c m) = Except.error e) :
    lookupKey (startConnector env st u c m cfg).1.connectors (mkKey u c m) = none
    ∧ (startConnector env st u c m cfg).2 = [mkKey u c m]
    ∧ (startConnector env2 (startConnector env st u c m cfg).1 u c m cfg).2 =
        [mkKey u c m] := by
  have h1 : startConnector env st u c m cfg =
      ({ st with connectors :=
          removeKey (st.connectors ++ [(mkKey u c m, ⟨u, c⟩)]) (mkKey u c m) },
       [mkKey u c m]) := by
    simp only [startConnector]
    rw [if_neg (by simp [habs]), if_neg (by simp [hsup]), herr]
  rw [h1]
  refine ⟨lookupKey_removeKey _ _, rfl, ?_⟩
  simp only [startConnector]
  rw [if_neg (by simp [containsKey_removeKey]), if_neg (by simp [hsup])]
  cases henv2 : env2.startResult (mkKey u c m) <;> simp [henv2]

theorem startConnector_failure_recovery_witness :
    lookupKey (startConnector ⟨fun _ => Except.error "boom", fun _ => (false, false)⟩
        ⟨[], false⟩ "u" "telegram" "business" []).1.connectors
      (mkKey "u" "telegram" "business") = none
    ∧ (startConnector ⟨fun _ => Except.error "boom", fun _ => (false, false)⟩
        ⟨[], false⟩ "u" "telegram" "business" []).2 = [mkKey "u" "telegram" "business"]
    ∧ (startConnector ⟨fun _ => Except.error "boom", fun _ => (false, false)⟩
        (startConnector ⟨fun _ => Except.error "boom", fun _ => (false, false)⟩
          ⟨[], false⟩ "u" "telegram" "business" []).1 "u" "telegram" "business" []).2 =
        [mkKey "u" "telegram" "business"] :=
  startConnector_failure_recovery
    ⟨fun _ => Except.error "boom", fun _ => (false, false)⟩
    ⟨fun _ => Except.error "boom", fun _ => (false, false)⟩
    ⟨[], false⟩ "u" "telegram" "business" [] "boom" rfl rfl rfl

/-- C8: stopAll invokes stop() on every live connector and collects every
settled outcome even when some stop() rejects (the batch is awaited with a
non-short-circuiting parallel await); afterwards the live connector map is
empty and the reconciliation poll timer is cancelled. -/
theorem stopAll_nonblocking (env : StopEnv) (st : RegState) (k : ConnKey) (e : String)
    (_hreject : env.stopResult k = Except.error e) :
    ((stopAll env st).2.map Prod.fst = st.connectors.map Prod.fst)
    ∧ (stopAll env st).1.connectors = []
    ∧ (stopAll env st).1.pollTimer = false := by
  refine ⟨?_, rfl, rfl⟩
  simp [stopAll]

theorem stopAll_nonblocking_witness :
    ((stopAll ⟨fun _ => Except.error "stuck"⟩
        ⟨[(mkKey "u" "telegram" "business", ⟨"u", "telegram"⟩),
          (mkKey "u" "discord" "business", ⟨"u", "discord"⟩)], true⟩).2.map Prod.fst =
      (⟨[(mkKey "u" "telegram" "business", ⟨"u", "telegram"⟩),
          (mkKey "u" "discord" "business", ⟨"u", "discord"⟩)], true⟩ : RegState).connectors.map Prod.fst)
    ∧ (stopAll ⟨fun _ => Except.error "stuck"⟩
        ⟨[(mkKey "u" "telegram" "business", ⟨"u", "telegram"⟩),
          (mkKey "u" "discord" "business", ⟨"u", "discord"⟩)], true⟩).1.connectors = []
    ∧ (stopAll ⟨fun _ => Except.error "stuck"⟩
        ⟨[(mkKey "u" "telegram" "business", ⟨"u", "telegram"⟩),
          (mkKey "u" "discord" "business", ⟨"u", "discord"⟩)], true⟩).1.pollTimer = false :=
  stopAll_nonblocking ⟨fun _ => Except.error "stuck"⟩
    ⟨[(mkKey "u" "telegram" "business", ⟨"u", "telegram"⟩),
      (mkKey "u" "discord" "business", ⟨"u", "discord"⟩)], true⟩
    (mkKey "u" "telegram" "business") "stuck" rfl

/-- C9: on a reconciliation pass, a live WhatsApp connector whose socket is
absent and which is not connecting, and whose key is still enabled, is
restarted — connector.start() is invoked for its key — unless the refetched
row configuration carries an access token, in which case the stale entry is
removed from the live map and no session-based reconnect is attempted. -/
theorem watcher_restarts_stale_whatsapp (env : ConnEnv) (rows : List ChannelRow)
    (active : List ConnKey) (st : RegState) (calls : List ConnKey)
    (u m : String) (conn : Connector) (row : ChannelRow)
    (hwa : conn.channelType = "whatsapp")
    (hm : m ≠ "")
    (hstale : env.connState (mkKey u "whatsapp" m) = (false, false))
    (hact : active.contains (mkKey u "whatsapp" m) = true)
    (hfind : rows.find? (fun r => r.userId == u && r.channelType == "whatsapp") = some row)
    (hrow : row.userId = u) :
    (jsOrOpt (getField row.config "accessToken") "" = "" →
      (watcherStep env rows active (st, calls) (mkKey u "whatsapp" m, conn)).2 =
        calls ++ [mkKey u "whatsapp" m])
    ∧ (jsOrOpt (getField row.config "accessToken") "" ≠ "" →
      (watcherStep env rows active (st, calls) (mkKey u "whatsapp" m, conn)).2 = calls
      ∧ lookupKey
          (watcherStep env rows active (st, calls) (mkKey u "whatsapp" m, conn)).1.connectors
          (mkKey u "whatsapp" m) = none) := by
  have hred : watcherStep env rows active (st, calls) (mkKey u "whatsapp" m, conn) =
      (if jsOrOpt (getField row.config "accessToken") "" ≠ "" then
        ({ st with connectors := removeKey st.connectors (mkKey u "whatsapp" m) }, calls)
      else
        ((startConnector env
            { st with connectors := removeKey st.connectors (mkKey u "whatsapp" m) }
            row.userId "whatsapp" (jsOr (mkKey u "whatsapp" m).mode "personal") row.config).1,
          calls ++ (startConnector env
            { st with connectors := removeKey st.connectors (mkKey u "whatsapp" m) }
            row.userId "whatsapp" (jsOr (mkKey u "whatsapp" m).mode "personal") row.config).2)) := by
    simp only [watcherStep]
    have hfind2 : List.find?
        (fun r => r.userId == (mkKey u "whatsapp" m).userId && r.channelType == "whatsapp")
        rows = some row := hfind
    rw [if_pos ⟨hwa, by rw [hstale], by rw [hstale]⟩, if_pos hact, hfind2]
  constructor
  · intro hno
    rw [hred, if_neg (by simp [hno])]
    have hmode : jsOr (mkKey u "whatsapp" m).mode "personal" = m := by
      simp [mkKey, jsOr, hm]
    rw [hmode, hrow]
    simp only [startConnector]
    rw [if_neg (by simp [containsKey_removeKey]),
      if_neg (by simp [isSupportedChannel, CONNECTOR_CLASSES])]
    cases henv : env.startResult (mkKey u "whatsapp" m) <;> simp [henv]
  · intro hyes
    rw [hred, if_pos hyes]
    exact ⟨rfl, lookupKey_removeKey _ _⟩

theorem watcher_restarts_stale_whatsapp_witness :
    (jsOrOpt (getField ([] : JsObj) "accessToken") "" = "" →
      (watcherStep envC6 rowsC6 [mkKey "u" "whatsapp" "business"]
        (⟨[(mkKey "u" "whatsapp" "business", ⟨"u", "whatsapp"⟩)], false⟩, [])
        (mkKey "u" "whatsapp" "business", ⟨"u", "whatsapp"⟩)).2 =
        [] ++ [mkKey "u" "whatsapp" "business"])
    ∧ (jsOrOpt (getField ([] : JsObj) "accessToken") "" ≠ "" →
      (watcherStep envC6 rowsC6 [mkKey "u" "whatsapp" "business"]
        (⟨[(mkKey "u" "whatsapp" "business", ⟨"u", "whatsapp"⟩)], false⟩, [])
        (mkKey "u" "whatsapp" "business", ⟨"u", "whatsapp"⟩)).2 = []
      ∧ lookupKey
          (watcherStep envC6 rowsC6 [mkKey "u" "whatsapp" "business"]
            (⟨[(mkKey "u" "whatsapp" "business", ⟨"u", "whatsapp"⟩)], false⟩, [])
            (mkKey "u" "whatsapp" "business", ⟨"u", "whatsapp"⟩)).1.connectors
          (mkKey "u" "whatsapp" "business") = none) :=
  watcher_restarts_stale_whatsapp envC6 rowsC6 [mkKey "u" "whatsapp" "business"]
    ⟨[(mkKey "u" "whatsapp" "business", ⟨"u", "whatsapp"⟩)], false⟩ []
    "u" "business" ⟨"u", "whatsapp"⟩
    { userId := "u", channelType := "whatsapp", connectionMode := none, config := [] }
    rfl (by decide) rfl (by decide) rfl rfl

-- ── Pipeline lemmas ─────────────────────────────────────────────────────────

/-- The Session stage never touches the Message or UserApiKey tables, stamps
`ctx.now` with its clock reading, and leaves the identifying context fields
unchanged. -/
theorem session_preserves (freshId : String) (tNow : Nat) (ctx : Ctx) (db : DB) :
    (sessionMiddleware freshId tNow ctx db).2.messages = db.messages
    ∧ (sessionMiddleware freshId tNow ctx db).2.apiKeys = db.apiKeys
    ∧ (sessionMiddleware freshId tNow ctx db).1.now = tNow
    ∧ (sessionMiddleware freshId tNow ctx db).1.text = ctx.text
    ∧ (sessionMiddleware freshId tNow ctx db).1.userId = ctx.userId := by
  unfold sessionMiddleware
  cases findConvo db ctx.userId ctx.channelType ctx.channelPeer with
  | none => exact ⟨rfl, rfl, rfl, rfl, rfl⟩
  | some row => exact ⟨rfl, rfl, rfl, rfl, rfl⟩

/-- A successful AI-Routing stage writes nothing to the datastore and leaves
the conversation id, timestamp, user and text of the context unchanged. -/
theorem aiRouter_ok_preserves (env : AIEnv) (d t : String) (ctx : Ctx) (db : DB)
    (ctx2 : Ctx) (db2 : DB)
    (h : aiRouterMiddleware env d t ctx db = Except.ok (ctx2, db2)) :
    db2 = db ∧ ctx2.convoId = ctx.convoId ∧ ctx2.now = ctx.now ∧ ctx2.text = ctx.text := by
  simp only [aiRouterMiddleware] at h
  split at h
  · exact Except.noConfusion h
  · split at h
    · exact Except.noConfusion h
    · simp only [Except.ok.injEq, Prod.mk.injEq] at h
      refine ⟨h.2.symm, ?_, ?_, ?_⟩ <;> rw [← h.1]

/-- With no credential resolvable, the AI-Routing stage raises before calling
the provider. -/
theorem aiRouter_none_errors (env : AIEnv) (d t : String) (ctx : Ctx) (db : DB)
    (h : resolveApiKey db env ctx.userId (jsOr ctx.aiProvider "openai") = none) :
    aiRouterMiddleware env d t ctx db =
      Except.error ("No API key configured for " ++ jsOr ctx.aiProvider "openai") := by
  simp only [aiRouterMiddleware]
  rw [h]

/-- Credential resolution reads only the UserApiKey table and the process
environment. -/
theorem resolveApiKey_apiKeys_congr (db db2 : DB) (env : AIEnv) (u p : String)
    (h : db.apiKeys = db2.apiKeys) :
    resolveApiKey db env u p = resolveApiKey db2 env u p := by
  simp only [resolveApiKey, h]

-- ── Pipeline claim theorems ─────────────────────────────────────────────────

/-- C3: every successfully completed pipeline run appends exactly one user
message and one assistant message to the resolved conversation — the user
message first — and, as the store clock cannot run behind the session clock,
the pair is ordered by creation time within the conversation. -/
theorem store_message_pairing (env : AIEnv) (p : PipeParams) (ctx0 : Ctx) (db0 : DB)
    (ctxF : Ctx) (dbF : DB)
    (hok : runPipeline env p ctx0 db0 = (dbF, Except.ok ctxF))
    (ht : p.tNow ≤ p.tSave) :
    ∃ u a, dbF.messages = db0.messages ++ [u, a]
      ∧ u.role = "user" ∧ a.role = "assistant"
      ∧ u.conversationId = ctxF.convoId ∧ a.conversationId = ctxF.convoId
      ∧ u.createdAt ≤ a.createdAt := by
  simp only [runPipeline] at hok
  cases hair : aiRouterMiddleware env p.dateStr p.timeStr
      (historyMiddleware p.histN (sessionMiddleware p.freshConvoId p.tNow ctx0 db0).1
        (sessionMiddleware p.freshConvoId p.tNow ctx0 db0).2).1
      (historyMiddleware p.histN (sessionMiddleware p.freshConvoId p.tNow ctx0 db0).1
        (sessionMiddleware p.freshConvoId p.tNow ctx0 db0).2).2 with
  | error e =>
      rw [hair] at hok
      exact Except.noConfusion (congrArg Prod.snd hok)
  | ok s3 =>
      obtain ⟨ctx3, db3⟩ := s3
      rw [hair] at hok
      have hpres := aiRouter_ok_preserves env p.dateStr p.timeStr _ _ ctx3 db3 hair
      have hsess := session_preserves p.freshConvoId p.tNow ctx0 db0
      have hdbF : dbF = (storeMiddleware p.idUser p.idAssistant p.tSave ctx3 db3).2 :=
        (congrArg Prod.fst hok).symm
      have hctxF : ctxF = ctx3 := by
        have h2 := congrArg Prod.snd hok
        simp only [Except.ok.injEq] at h2
        exact h2.symm
      have hnow : ctx3.now = p.tNow := by
        rw [hpres.2.2.1]
        exact hsess.2.2.1
      have hmsg : db3.messages = db0.messages := by
        rw [hpres.1]
        exact hsess.1
      refine ⟨⟨p.idUser, ctx3.convoId, "user", ctx3.text, ctx3.now⟩,
        ⟨p.idAssistant, ctx3.convoId, "assistant", ctx3.reply, p.tSave⟩,
        ?_, rfl, rfl, ?_, ?_, ?_⟩
      · rw [hdbF]
        simp only [storeMiddleware]
        rw [hmsg]
      · rw [hctxF]
      · rw [hctxF]
      · simp only [hnow]
        exact ht

/-- C4: when neither a stored key nor an environment fallback exists for the
provider the Session stage resolved, the AI-Routing stage raises, the pipeline
aborts before the Store stage, and the datastore holds exactly the state the
Session stage left — in particular no Message row was written. -/
theorem pipeline_aborts_without_credential (env : AIEnv) (p : PipeParams)
    (ctx0 : Ctx) (db0 : DB)
    (h : resolveApiKey db0 env ctx0.userId
        (jsOr (sessionMiddleware p.freshConvoId p.tNow ctx0 db0).1.aiProvider "openai") = none) :
    runPipeline env p ctx0 db0 =
      ((sessionMiddleware p.freshConvoId p.tNow ctx0 db0).2,
        Except.error ("No API key configured for " ++
          jsOr (sessionMiddleware p.freshConvoId p.tNow ctx0 db0).1.aiProvider "openai"))
    ∧ (runPipeline env p ctx0 db0).1.messages = db0.messages := by
  have hsess := session_preserves p.freshConvoId p.tNow ctx0 db0
  have hnone : resolveApiKey
      (historyMiddleware p.histN (sessionMiddleware p.freshConvoId p.tNow ctx0 db0).1
        (sessionMiddleware p.freshConvoId p.tNow ctx0 db0).2).2 env
      (historyMiddleware p.histN (sessionMiddleware p.freshConvoId p.tNow ctx0 db0).1
        (sessionMiddleware p.freshConvoId p.tNow ctx0 db0).2).1.userId
      (jsOr (historyMiddleware p.histN (sessionMiddleware p.freshConvoId p.tNow ctx0 db0).1
        (sessionMiddleware p.freshConvoId p.tNow ctx0 db0).2).1.aiProvider "openai") = none := by
    have hcongr := resolveApiKey_apiKeys_congr
      (sessionMiddleware p.freshConvoId p.tNow ctx0 db0).2 db0 env
      (sessionMiddleware p.freshConvoId p.tNow ctx0 db0).1.userId
      (jsOr (sessionMiddleware p.freshConvoId p.tNow ctx0 db0).1.aiProvider "openai")
      hsess.2.1
    show resolveApiKey (sessionMiddleware p.freshConvoId p.tNow ctx0 db0).2 env
      (sessionMiddleware p.freshConvoId p.tNow ctx0 db0).1.userId
      (jsOr (sessionMiddleware p.freshConvoId p.tNow ctx0 db0).1.aiProvider "openai") = none
    rw [hcongr, hsess.2.2.2.2]
    exact h
  have hmain : runPipeline env p ctx0 db0 =
      ((sessionMiddleware p.freshConvoId p.tNow ctx0 db0).2,
        Except.error ("No API key configured for " ++
          jsOr (sessionMiddleware p.freshConvoId p.tNow ctx0 db0).1.aiProvider "openai")) := by
    simp only [runPipeline]
    rw [aiRouter_none_errors env p.dateStr p.timeStr _ _ hnone]
    rfl
  refine ⟨hmain, ?_⟩
  rw [hmain]
  exact hsess.1

/-- Concrete inbound context for the pipeline witnesses. -/
def ctxW : Ctx :=
  { userId := "u", channelType := "telegram", channelPeer := "peer", channelName := ""
    text := "hi", now := 0, convoId := "", aiProvider := "", aiModel := ""
    history := [], reply := "", toolsUsed := [] }

/-- Datastore with a stored OpenAI key for the C3 witness. -/
def dbW : DB :=
  { conversations := [], messages := []
    apiKeys := [{ userId := "u", provider := "openai", apiKey := "sk" }] }

/-- Environment with no env-var fallback and a provider that replies. -/
def envW : AIEnv :=
  { envVar := fun _ => none
    callAI := fun _ _ _ _ => Except.ok { reply := "hello", toolsUsed := [] } }

def pW : PipeParams :=
  { freshConvoId := "c1", idUser := "m1", idAssistant := "m2", tNow := 1, tSave := 2
    histN := 15, dateStr := "d", timeStr := "t" }

/-- The context the C3 witness run finishes with. -/
def ctxFW : Ctx :=
  { userId := "u", channelType := "telegram", channelPeer := "peer", channelName := ""
    text := "hi", now := 1, convoId := "c1", aiProvider := "openai"
    aiModel := "gpt-5.2-chat-latest", history := [], reply := "hello", toolsUsed := [] }

/-- The datastore the C3 witness run finishes with. -/
def dbFW : DB :=
  { conversations := [⟨"c1", "u", "telegram", "peer", "hi", "gpt-5.2-chat-latest", "openai", 1, 2⟩]
    messages := [⟨"m1", "c1", "user", "hi", 1⟩, ⟨"m2", "c1", "assistant", "hello", 2⟩]
    apiKeys := [{ userId := "u", provider := "openai", apiKey := "sk" }] }

set_option maxRecDepth 100000 in
theorem store_message_pairing_witness :
    ∃ u a, dbFW.messages = dbW.messages ++ [u, a]
      ∧ u.role = "user" ∧ a.role = "assistant"
      ∧ u.conversationId = ctxFW.convoId ∧ a.conversationId = ctxFW.convoId
      ∧ u.createdAt ≤ a.createdAt :=
  store_message_pairing envW pW ctxW dbW ctxFW dbFW rfl (by decide)

/-- Empty datastore: no stored key, and `envW` has no env fallback. -/
def dbW4 : DB := { conversations := [], messages := [], apiKeys := [] }

set_option maxRecDepth 100000 in
theorem pipeline_aborts_without_credential_witness :
    runPipeline envW pW ctxW dbW4 =
      ((sessionMiddleware pW.freshConvoId pW.tNow ctxW dbW4).2,
        Except.error ("No API key configured for " ++
          jsOr (sessionMiddleware pW.freshConvoId pW.tNow ctxW dbW4).1.aiProvider "openai"))
    ∧ (runPipeline envW pW ctxW dbW4).1.messages = dbW4.messages :=
  pipeline_aborts_without_credential envW pW ctxW dbW4 rfl

-- ── History-load claim (C5) ─────────────────────────────────────────────────

/-- A conversation holding 21 messages with creation times 0..20. -/
def dbC5 : DB :=
  { conversations := []
    messages := (List.range 21).map fun i =>
      { id := "m", conversationId := "c", role := "user", content := "t", createdAt := i }
    apiKeys := [] }

/-- C5: the history loads of route.ts and bot.mjs use ORDER BY "createdAt" ASC
LIMIT 20 and therefore return the OLDEST 20 messages of the conversation, not
the most recent 20 (on a 21-message conversation the newest message, createdAt
20, is omitted) — contradicting the claim and the code comment "last 20
messages"; the gateway bot load (DESC LIMIT 15 then reverse) does return the
most recent 15 oldest-to-newest. -/
theorem routeHistory_loads_oldest_not_most_recent :
    routeHistoryLoad dbC5 "c" ≠
      mostRecentMessagesSpec 20 (dbC5.messages.filter fun m => m.conversationId == "c")
    ∧ (∀ m ∈ routeHistoryLoad dbC5 "c", m.createdAt < 20)
    ∧ botHistoryLoad dbC5 "c" = routeHistoryLoad dbC5 "c"
    ∧ gatewayHistoryLoad dbC5 "c" =
      mostRecentMessagesSpec 15 (dbC5.messages.filter fun m => m.conversationId == "c") := by
  decide

end DMMS
